import Mathlib

/-!
Verification of the incremental-processing metadata engine of the
batch-video-converter repository.

Shallow embedding conventions:
* Filesystem paths are modelled as lists of path components (`FPath`), already
  absolute and resolved (so `Path.resolve()` is the identity and
  `Path.relative_to` is a prefix test).  Components never contain a slash, so
  rendering a component list to a string is injective.
* Python `dict`s keyed by strings are modelled as association lists with
  insert-or-replace semantics, matching `d[k] = v` / `k in d` / `d[k]`.
* Processing records are modelled with the fixed schema that
  `MetadataManager.mark_processed` / `mark_failed` write: the four stored
  config sections (`video`, `audio`, `processing`, `files` — everything of
  `Config.model_dump()` except the popped `logging` section) plus
  `processed_at`, `status` and `error_log_file_path`.  Timestamps
  (`datetime.now()`) are threaded in as an explicit `now : Nat` parameter.
* Filesystem effects are threaded through an explicit `FS` state; operations
  return `(Except PyError Manager) × FS`, where the `Except.error` constructor
  models a Python exception propagating to the caller.  Points where the OS
  may refuse a write are driven by an explicit `IOBehavior` record.
-/

/-- An absolute, resolved filesystem path as its list of components
(`["out", "a.mp4"]` stands for `/out/a.mp4`). -/
abbrev FPath := List String

/-- Rendering of an absolute path, as Python `str(Path)` renders it. -/
def renderAbs (p : FPath) : String :=
  "/" ++ String.intercalate "/" p

/-- Rendering of a relative path (`str(input_file.relative_to(input_dir))`),
forward-slash joined. -/
def renderRel (p : List String) : String :=
  String.intercalate "/" p

/-- `Path.relative_to`: succeeds exactly when `base` is a prefix of `p`
(paths are already resolved); Python raises `ValueError` on the `none` case. -/
def relative_to (p base : FPath) : Option (List String) :=
  if base.isPrefixOf p then some (p.drop base.length) else none

/-- `VideoConfig` of src/src/config.py. -/
structure VideoConfig where
  codec : String
  crf : Nat
  pixel_format : String
  tag : String
  deriving DecidableEq, Repr

/-- `AudioConfig` of src/src/config.py. -/
structure AudioConfig where
  codec : String
  bitrate : String
  deriving DecidableEq, Repr

/-- `ProcessingConfig` of src/src/config.py. -/
structure ProcessingConfig where
  overwrite_output : Bool
  deriving DecidableEq, Repr

/-- `LoggingConfig` of src/src/config.py. -/
structure LoggingConfig where
  level : String
  deriving DecidableEq, Repr

/-- `FileConfig` of src/src/config.py. -/
structure FileConfig where
  input_extensions : List String
  ignore : List String
  deriving DecidableEq, Repr

/-- `Config` of src/src/config.py. -/
structure Config where
  video : VideoConfig
  audio : AudioConfig
  processing : ProcessingConfig
  logging : LoggingConfig
  files : FileConfig
  deriving DecidableEq, Repr

/-- A processing record as written into `processed_files` by
`mark_processed` / `mark_failed` (src/src/metadata.py lines 182-192 and
221-235): the `model_dump()` of the config minus the popped `logging`
section, plus bookkeeping fields.  `error_log_file_path := none` models the
JSON `null`. -/
structure FileRecord where
  video : VideoConfig
  audio : AudioConfig
  processing : ProcessingConfig
  files : FileConfig
  processed_at : Nat
  status : String
  error_log_file_path : Option String
  deriving DecidableEq, Repr

/-- Dict lookup (`k in d` / `d[k]`) on a string-keyed association list. -/
def alistLookup {α : Type} : List (String × α) → String → Option α
  | [], _ => none
  | (k, v) :: rest, key => if k = key then some v else alistLookup rest key

/-- Dict assignment `d[k] = v`: replaces an existing binding or appends. -/
def alistInsert {α : Type} : List (String × α) → String → α → List (String × α)
  | [], key, v => [(key, v)]
  | (k, v0) :: rest, key, v =>
    if k = key then (key, v) :: rest else (k, v0) :: alistInsert rest key v

/-- The on-disk metadata document (parsed `.batch-video-metadata.json`):
`input_dir` may still be `null`. -/
structure MetadataDoc where
  input_dir : Option FPath
  last_updated : Option Nat
  processed_files : List (String × FileRecord)
  deriving DecidableEq, Repr

/-- The in-memory `self._metadata` after a successful `initialize`: the
`input_dir` key is always bound (initialize sets or validates it). -/
structure Metadata where
  input_dir : FPath
  last_updated : Option Nat
  processed_files : List (String × FileRecord)
  deriving DecidableEq, Repr

/-- Re-serialize the in-memory metadata for the on-disk document. -/
def Metadata.toDoc (md : Metadata) : MetadataDoc :=
  { input_dir := some md.input_dir
    last_updated := md.last_updated
    processed_files := md.processed_files }

/-- The filesystem state visible to the store: the parsed content of the
metadata file (`none` = absent or unparseable), the temporary sibling file,
the error-artifact text files, and the set of other existing files
(converted outputs) consulted by `output_file.exists()`. -/
structure FS where
  metadataDoc : Option MetadataDoc
  tempDoc : Option MetadataDoc
  artifacts : List (String × String)
  outputs : List String
  deriving DecidableEq, Repr

/-- Python exceptions raised by the embedded code. -/
inductive PyError where
  | runtimeError (msg : String)
  | valueError (msg : String)
  | osError (msg : String)
  deriving DecidableEq, Repr

/-- Which filesystem writes the OS refuses during an operation:
`flushFails` makes the metadata-flush write raise `OSError` (caught in
`_save_metadata`), `artifactWriteFails` makes the error-artifact write raise
`OSError` (not caught anywhere). -/
structure IOBehavior where
  flushFails : Bool
  artifactWriteFails : Bool
  deriving DecidableEq, Repr

/-- `MetadataManager` object state: `metadata = none` models
`self._metadata is None` (before `initialize`). -/
structure Manager where
  output_dir : FPath
  metadata : Option Metadata
  deriving DecidableEq, Repr

/-- `self.metadata_file = output_dir / METADATA_FILENAME`. -/
def metadata_file (mgr : Manager) : FPath :=
  mgr.output_dir ++ [".batch-video-metadata.json"]

/-- `self.failed_folder = output_dir / "failed_conversions"`. -/
def failed_folder (mgr : Manager) : FPath :=
  mgr.output_dir ++ ["failed_conversions"]

/-- `MetadataManager._load_metadata`: an absent metadata file and a corrupt
one are both replaced by the empty structure (lines 27-49). -/
def load_metadata (fs : FS) : MetadataDoc :=
  match fs.metadataDoc with
  | some doc => doc
  | none => { input_dir := none, last_updated := none, processed_files := [] }

/-- The `ValueError` message raised on an input-directory mismatch
(src/src/metadata.py lines 90-94). -/
def mismatch_message (mgr : Manager) (old new : String) : String :=
  "Input directory mismatch: metadata shows '" ++ old ++
    "' but current input is '" ++ new ++ "'. Delete " ++
    renderAbs (metadata_file mgr) ++ " to process a different input directory."

/-- `MetadataManager.initialize` (lines 71-96): loads persisted state and
binds or validates `input_dir`.  It performs no filesystem write, so the
`FS` component is returned unchanged on every path. -/
def initialize_store (mgr : Manager) (fs : FS) (input_dir : FPath) :
    (Except PyError Manager) × FS :=
  let doc := load_metadata fs
  match doc.input_dir with
  | none =>
    let md : Metadata :=
      { input_dir := input_dir
        last_updated := doc.last_updated
        processed_files := doc.processed_files }
    (Except.ok { mgr with metadata := some md }, fs)
  | some existing =>
    if existing = input_dir then
      let md : Metadata :=
        { input_dir := existing
          last_updated := doc.last_updated
          processed_files := doc.processed_files }
      (Except.ok { mgr with metadata := some md }, fs)
    else
      (Except.error (PyError.valueError
        (mismatch_message mgr (renderAbs existing) (renderAbs input_dir))), fs)

/-- `MetadataManager._save_metadata` (lines 51-69): stamps `last_updated`,
writes the full document to the temporary sibling file and atomically
replaces the metadata file.  An `OSError` during the write is caught: it is
logged, the temporary file is removed, the on-disk metadata file stays
unchanged, and the method returns normally. -/
def save_metadata (mgr : Manager) (fs : FS) (flushFails : Bool) (now : Nat) :
    (Except PyError Manager) × FS :=
  match mgr.metadata with
  | none =>
    (Except.error (PyError.runtimeError
      "Metadata not initialized. Call initialize() first."), fs)
  | some md =>
    let md2 := { md with last_updated := some now }
    let mgr2 := { mgr with metadata := some md2 }
    if flushFails then
      (Except.ok mgr2, { fs with tempDoc := none })
    else
      (Except.ok mgr2, { fs with metadataDoc := some md2.toDoc, tempDoc := none })

/-- The config comparison at the end of `should_skip_file` (lines 140-158):
dict equality of the stored record minus `logging` (never stored),
`processed_at`, `status`, `error_output` against the current
`model_dump()` minus `logging` with `error_log_file_path = None` added.
Both dicts then have exactly the keys `video`, `audio`, `processing`,
`files`, `error_log_file_path`, so dict equality is this field-wise test. -/
def configMatches (r : FileRecord) (cfg : Config) : Bool :=
  r.video == cfg.video && r.audio == cfg.audio && r.processing == cfg.processing
    && r.files == cfg.files && r.error_log_file_path == none

/-- `MetadataManager.should_skip_file` (lines 98-158), in the source's check
order: uninitialized store raises; a path-resolution failure is logged and
returns `false`; a missing output file returns `false`; a missing record
returns `false`; a `failed` record returns `false`; otherwise the stored
config snapshot is compared with the current config. -/
def should_skip_file (mgr : Manager) (fs : FS) (input_file output_file : FPath)
    (current_config : Config) : Except PyError Bool :=
  match mgr.metadata with
  | none =>
    Except.error (PyError.runtimeError
      "Metadata not initialized. Call initialize() first.")
  | some md =>
    match relative_to input_file md.input_dir with
    | none => Except.ok false
    | some relComps =>
      if fs.outputs.contains (renderAbs output_file) then
        match alistLookup md.processed_files (renderRel relComps) with
        | none => Except.ok false
        | some r =>
          if r.status == "failed" then Except.ok false
          else Except.ok (configMatches r current_config)
      else Except.ok false

/-- The record dict built by `mark_processed` (lines 182-189): the config
snapshot minus `logging`, plus timestamp, status and a null artifact path. -/
def successRecord (config : Config) (now : Nat) : FileRecord :=
  { video := config.video
    audio := config.audio
    processing := config.processing
    files := config.files
    processed_at := now
    status := "success"
    error_log_file_path := none }

/-- The record dict built by `mark_failed` (lines 221-235) once
`error_log_file_path` has been assigned into it. -/
def failedRecord (config : Config) (now : Nat) (error_log_file_path : String) :
    FileRecord :=
  { video := config.video
    audio := config.audio
    processing := config.processing
    files := config.files
    processed_at := now
    status := "failed"
    error_log_file_path := some error_log_file_path }

/-- The manager state after a record was stored under `key` and the flush
stamped `last_updated` (the in-memory effect of `mark_processed` /
`mark_failed` followed by `_save_metadata`). -/
def markedManager (mgr : Manager) (md : Metadata) (key : String)
    (r : FileRecord) (now : Nat) : Manager :=
  let md2 : Metadata :=
    { input_dir := md.input_dir
      last_updated := some now
      processed_files := alistInsert md.processed_files key r }
  { mgr with metadata := some md2 }

/-- `MetadataManager.mark_processed` (lines 160-196): a file outside the
bound input directory is logged and dropped (no state change); otherwise a
success record snapshotting the config is stored under the relative path
and the metadata is flushed. -/
def mark_processed (mgr : Manager) (fs : FS) (iob : IOBehavior) (now : Nat)
    (input_file : FPath) (config : Config) : (Except PyError Manager) × FS :=
  match mgr.metadata with
  | none =>
    (Except.error (PyError.runtimeError
      "Metadata not initialized. Call initialize() first."), fs)
  | some md =>
    match relative_to input_file md.input_dir with
    | none => (Except.ok mgr, fs)
    | some relComps =>
      let record := successRecord config now
      let pf2 := alistInsert md.processed_files (renderRel relComps) record
      let md2 := { md with processed_files := pf2 }
      save_metadata { mgr with metadata := some md2 } fs iob.flushFails now

/-- The `safe_filename` sanitization of `write_failed_logs` (line 252):
`file_path.replace('/', '_').replace('\\', '_')`.  Both patterns are single
characters, so the two replaces are modelled as one character-wise map. -/
def safe_filename (file_path : String) : String :=
  String.mk (file_path.data.map (fun c => if c = '/' ∨ c = '\\' then '_' else c))

/-- The artifact path built by `write_failed_logs` (line 254):
`f'{self.failed_folder / safe_filename}.txt'`. -/
def error_log_path (mgr : Manager) (file_path : String) : String :=
  renderAbs (failed_folder mgr ++ [safe_filename file_path]) ++ ".txt"

/-- `MetadataManager.write_failed_logs` (lines 240-257): writes the error
text (plus a trailing newline) to `failed_conversions/<sanitized>.txt` under
the output root and returns that path.  The body has no try/except, so a
refused write raises `OSError` to the caller. -/
def write_failed_logs (mgr : Manager) (fs : FS) (iob : IOBehavior)
    (file_path : String) (error_output : String) : Except PyError (String × FS) :=
  let error_log_file_path := error_log_path mgr file_path
  if iob.artifactWriteFails then
    Except.error (PyError.osError ("Failed to write " ++ error_log_file_path))
  else
    let artifacts2 :=
      alistInsert fs.artifacts error_log_file_path (error_output ++ "\n")
    Except.ok (error_log_file_path, { fs with artifacts := artifacts2 })

/-- `MetadataManager.mark_failed` (lines 198-238): a file outside the bound
input directory is logged and dropped; otherwise a failed record is stored,
the error artifact is written (the source inserts the record dict first and
then assigns `error_log_file_path` into that same aliased dict, so on
success the net stored record carries the artifact path), and the metadata
is flushed.  An artifact-write `OSError` propagates before any flush. -/
def mark_failed (mgr : Manager) (fs : FS) (iob : IOBehavior) (now : Nat)
    (input_file : FPath) (config : Config) (error_output : String) :
    (Except PyError Manager) × FS :=
  match mgr.metadata with
  | none =>
    (Except.error (PyError.runtimeError
      "Metadata not initialized. Call initialize() first."), fs)
  | some md =>
    match relative_to input_file md.input_dir with
    | none => (Except.ok mgr, fs)
    | some relComps =>
      let relative_path := renderRel relComps
      match write_failed_logs mgr fs iob relative_path error_output with
      | Except.error e => (Except.error e, fs)
      | Except.ok (error_log_file_path, fs2) =>
        let record := failedRecord config now error_log_file_path
        let pf2 := alistInsert md.processed_files relative_path record
        let md2 := { md with processed_files := pf2 }
        save_metadata { mgr with metadata := some md2 } fs2 iob.flushFails now

/-- Modelled from the spec: `get_failed_files` is called by
tests/test_failure_metadata.py but is absent from src/src/metadata.py.
Spec section 4.1: "returns the subset of `processed_files` whose status is
`failed`".  It reads the store and writes nothing. -/
def get_failed_files (md : Metadata) : List (String × FileRecord) :=
  md.processed_files.filter (fun kv => kv.2.status == "failed")

/-- `ScriptOutcome`: which counter an iteration of the loop in
src/script.py `main` increments. -/
inductive ScriptOutcome where
  | skipped
  | succeeded
  | failed
  deriving DecidableEq, Repr

/-- One iteration of the loop of `main` in src/script.py (lines 114-138):
the output path re-roots the relative path under the output directory, the
file is counted as skipped as soon as the output file already exists, and
otherwise `convert_file` decides success or failure.  No `MetadataManager`
is consulted and no outcome is recorded; `relative_to` raising (a file not
under `input_dir`) cannot happen for discovered files. -/
def script_process_file (fs : FS) (input_dir output_dir : FPath)
    (input_file : FPath) (convert_succeeds : Bool) : Except PyError ScriptOutcome :=
  match relative_to input_file input_dir with
  | none => Except.error (PyError.valueError "file is not under the input directory")
  | some relComps =>
    let output_file := output_dir ++ relComps
    if fs.outputs.contains (renderAbs output_file) then Except.ok ScriptOutcome.skipped
    else if convert_succeeds then Except.ok ScriptOutcome.succeeded
    else Except.ok ScriptOutcome.failed

/-- Byte-level view of the two files touched by `_save_metadata`
(src/src/metadata.py lines 59-64): the content of the metadata file and of
its temporary sibling (`none` = absent). -/
structure DiskBytes where
  metaBytes : Option String
  tempBytes : Option String
  deriving DecidableEq, Repr

/-- The atomic filesystem events of a flush: a write to the temporary
sibling file, and `Path.replace`, the single atomic rename of the temporary
file over the metadata file. -/
inductive FlushEvent where
  | writeTemp (s : String)
  | replaceMeta
  deriving DecidableEq, Repr

/-- Effect of one flush event on the two files. -/
def applyEvent (d : DiskBytes) : FlushEvent → DiskBytes
  | FlushEvent.writeTemp s => { d with tempBytes := some s }
  | FlushEvent.replaceMeta => { metaBytes := d.tempBytes, tempBytes := none }

/-- Run a sequence of flush events. -/
def runEvents (d : DiskBytes) : List FlushEvent → DiskBytes
  | [] => d
  | e :: es => runEvents (applyEvent d e) es

/-- The event trace of one `_save_metadata` flush: the temporary file
receives any number of partial writes, then the complete document, then
`Path.replace` renames it over the metadata file in one atomic step.  A
process kill mid-flush is an arbitrary prefix of this trace. -/
def flushTrace (partials : List String) (doc : String) : List FlushEvent :=
  partials.map FlushEvent.writeTemp ++ [FlushEvent.writeTemp doc, FlushEvent.replaceMeta]

/-- Concrete configuration used by the witnesses (the repository's own
default ffmpeg settings from src/script.py). -/
def cfgA : Config :=
  { video := { codec := "hevc_videotoolbox", crf := 23, pixel_format := "p010le", tag := "hvc1" }
    audio := { codec := "aac", bitrate := "128k" }
    processing := { overwrite_output := true }
    logging := { level := "INFO" }
    files := { input_extensions := [".mp4"], ignore := [] } }

/-- `cfgA` with only the `files.ignore` patterns changed. -/
def cfgB : Config :=
  { cfgA with files := { input_extensions := [".mp4"], ignore := ["tmp"] } }

/-- A success record exactly as `mark_processed` would write it for `cfgA`. -/
def recA : FileRecord :=
  { video := cfgA.video, audio := cfgA.audio, processing := cfgA.processing
    files := cfgA.files, processed_at := 1, status := "success", error_log_file_path := none }

/-- The same record marked failed. -/
def recFail : FileRecord := { recA with status := "failed" }

/-- A store bound to `/in` with no records. -/
def mdEmptyA : Metadata :=
  { input_dir := ["in"], last_updated := none, processed_files := [] }

/-- A store bound to `/in` with a success record for `a.mp4`. -/
def mdSuccA : Metadata :=
  { mdEmptyA with processed_files := [("a.mp4", recA)] }

/-- A store bound to `/in` with a failed record for `a.mp4`. -/
def mdFailA : Metadata :=
  { mdEmptyA with processed_files := [("a.mp4", recFail)] }

/-- A manager for output root `/out` holding the given in-memory metadata. -/
def mgrOf (md : Metadata) : Manager :=
  { output_dir := ["out"], metadata := some md }

/-- A filesystem on which the converted output `/out/a.mp4` exists. -/
def fsA : FS :=
  { metadataDoc := none, tempDoc := none, artifacts := [], outputs := ["/out/a.mp4"] }

/-- The same filesystem with the output file missing. -/
def fsNoOutA : FS := { fsA with outputs := [] }

/-- A persisted metadata document already bound to input root `/in`. -/
def docInA : MetadataDoc :=
  { input_dir := some ["in"], last_updated := none, processed_files := [] }

/-- A filesystem whose metadata file holds `docInA`. -/
def fsBoundA : FS := { fsA with metadataDoc := some docInA }

/-- The input file `/in/a.mp4`. -/
def fInA : FPath := ["in", "a.mp4"]

/-- The corresponding re-rooted output file `/out/a.mp4`. -/
def oA : FPath := ["out", "a.mp4"]

/-- The manager state after a successful `initialize` against the persisted
document `doc` with bound input root `a`. -/
def boundManager (mgr : Manager) (a : FPath) (doc : MetadataDoc) : Manager :=
  let md : Metadata :=
    { input_dir := a
      last_updated := doc.last_updated
      processed_files := doc.processed_files }
  { mgr with metadata := some md }

lemma alistLookup_insert_self {α : Type} (l : List (String × α)) (k : String) (v : α) :
    alistLookup (alistInsert l k v) k = some v := by
  induction l with
  | nil => simp [alistInsert, alistLookup]
  | cons hd t ih =>
    obtain ⟨k0, v0⟩ := hd
    by_cases hk : k0 = k
    · simp [alistInsert, hk, alistLookup]
    · simp [alistInsert, hk, alistLookup, ih]

lemma configMatches_eq_true_iff (r : FileRecord) (cfg : Config) :
    configMatches r cfg = true ↔
      (r.video = cfg.video ∧ r.audio = cfg.audio ∧ r.processing = cfg.processing ∧
        r.files = cfg.files ∧ r.error_log_file_path = none) := by
  simp [configMatches, Bool.and_eq_true, beq_iff_eq, and_assoc]

/-- C1: `should_skip_file` returns false (reprocess) in each of these cases:
the input file is not under the bound input directory; the output file does
not exist on disk; no record exists for the relative path; or the record's
status is `failed`, which forces false for every current configuration. -/
theorem should_skip_file_reprocess_cases
    (mgr : Manager) (fs : FS) (input_file output_file : FPath) (cfg : Config)
    (md : Metadata) (hmd : mgr.metadata = some md) :
    (relative_to input_file md.input_dir = none →
      should_skip_file mgr fs input_file output_file cfg = Except.ok false)
    ∧ (fs.outputs.contains (renderAbs output_file) = false →
      should_skip_file mgr fs input_file output_file cfg = Except.ok false)
    ∧ (∀ relComps, relative_to input_file md.input_dir = some relComps →
        alistLookup md.processed_files (renderRel relComps) = none →
        should_skip_file mgr fs input_file output_file cfg = Except.ok false)
    ∧ (∀ relComps r, relative_to input_file md.input_dir = some relComps →
        alistLookup md.processed_files (renderRel relComps) = some r →
        r.status = "failed" →
        should_skip_file mgr fs input_file output_file cfg = Except.ok false) := by
  refine ⟨?_, ?_, ?_, ?_⟩
  · intro h
    simp [should_skip_file, hmd, h]
  · intro h
    have h2 : renderAbs output_file ∉ fs.outputs := by simpa using h
    cases hrel : relative_to input_file md.input_dir with
    | none => simp [should_skip_file, hmd, hrel]
    | some relComps => simp [should_skip_file, hmd, hrel, h2]
  · intro relComps h1 h2
    simp [should_skip_file, hmd, h1, h2]
  · intro relComps r h1 h2 h3
    simp [should_skip_file, hmd, h1, h2, h3]

theorem should_skip_file_reprocess_cases_witness :
    should_skip_file (mgrOf mdSuccA) fsA ["elsewhere", "b.mp4"] oA cfgA = Except.ok false
    ∧ should_skip_file (mgrOf mdSuccA) fsNoOutA fInA oA cfgA = Except.ok false
    ∧ should_skip_file (mgrOf mdEmptyA) fsA fInA oA cfgA = Except.ok false
    ∧ should_skip_file (mgrOf mdFailA) fsA fInA oA cfgA = Except.ok false :=
  ⟨(should_skip_file_reprocess_cases (mgrOf mdSuccA) fsA ["elsewhere", "b.mp4"] oA cfgA
      mdSuccA rfl).1 rfl,
   (should_skip_file_reprocess_cases (mgrOf mdSuccA) fsNoOutA fInA oA cfgA
      mdSuccA rfl).2.1 rfl,
   (should_skip_file_reprocess_cases (mgrOf mdEmptyA) fsA fInA oA cfgA
      mdEmptyA rfl).2.2.1 ["a.mp4"] rfl rfl,
   (should_skip_file_reprocess_cases (mgrOf mdFailA) fsA fInA oA cfgA
      mdFailA rfl).2.2.2 ["a.mp4"] recFail rfl rfl rfl⟩

/-- C8: `get_failed_files` returns exactly the bindings of `processed_files`
whose record status is `failed`; it is a pure read of the store. -/
theorem get_failed_files_spec (md : Metadata) (k : String) (r : FileRecord) :
    (k, r) ∈ get_failed_files md ↔ ((k, r) ∈ md.processed_files ∧ r.status = "failed") := by
  simp [get_failed_files, List.mem_filter]

/-- C10: when the input file is not under the bound input directory,
`mark_processed` and `mark_failed` return normally and change nothing: the
manager state and the whole filesystem (metadata file, temp file, error
artifacts) are returned unchanged. -/
theorem mark_outside_input_dir_noop
    (mgr : Manager) (fs : FS) (iob : IOBehavior) (now : Nat)
    (input_file : FPath) (cfg : Config) (error_output : String)
    (md : Metadata)
    (hmd : mgr.metadata = some md)
    (hrel : relative_to input_file md.input_dir = none) :
    mark_processed mgr fs iob now input_file cfg = (Except.ok mgr, fs)
    ∧ mark_failed mgr fs iob now input_file cfg error_output = (Except.ok mgr, fs) := by
  constructor
  · simp [mark_processed, hmd, hrel]
  · simp [mark_failed, hmd, hrel]

theorem mark_outside_input_dir_noop_witness :
    mark_processed (mgrOf mdSuccA) fsA ⟨false, false⟩ 9 ["elsewhere", "b.mp4"] cfgA =
      (Except.ok (mgrOf mdSuccA), fsA)
    ∧ mark_failed (mgrOf mdSuccA) fsA ⟨false, false⟩ 9 ["elsewhere", "b.mp4"] cfgA "boom" =
      (Except.ok (mgrOf mdSuccA), fsA) :=
  mark_outside_input_dir_noop (mgrOf mdSuccA) fsA ⟨false, false⟩ 9 ["elsewhere", "b.mp4"]
    cfgA "boom" mdSuccA rfl rfl

/-- C2 counterexample: a success record written with `cfgA` agrees with the
current config `cfgB` on every video, audio and processing field (and the
record's `error_log_file_path` is null and the output exists), yet
`should_skip_file` returns false, because the code also compares the
`files` section (`cfgB` differs from the stored snapshot only in
`files.ignore`).  The claim predicts true here. -/
theorem should_skip_files_section_cex :
    recA.video = cfgB.video ∧ recA.audio = cfgB.audio ∧
    recA.processing = cfgB.processing ∧ recA.status = "success" ∧
    recA.error_log_file_path = none ∧
    alistLookup mdSuccA.processed_files (renderRel ["a.mp4"]) = some recA ∧
    relative_to fInA mdSuccA.input_dir = some ["a.mp4"] ∧
    fsA.outputs.contains (renderAbs oA) = true ∧
    should_skip_file (mgrOf mdSuccA) fsA fInA oA cfgB = Except.ok false :=
  ⟨rfl, rfl, rfl, rfl, rfl, rfl, rfl, rfl, rfl⟩

/-- C2 amended: for a record with status `success` whose output file exists,
`should_skip_file` returns true exactly when the stored video, audio,
processing AND files sections equal the current configuration's sections
and the stored `error_log_file_path` is null; the `logging` section and the
bookkeeping fields `status` and `processed_at` are excluded, so changing
only the logging level never changes the decision. -/
theorem should_skip_config_equality_amended
    (mgr : Manager) (fs : FS) (input_file output_file : FPath) (cfg : Config)
    (md : Metadata) (relComps : List String) (r : FileRecord)
    (hmd : mgr.metadata = some md)
    (hrel : relative_to input_file md.input_dir = some relComps)
    (hout : fs.outputs.contains (renderAbs output_file) = true)
    (hrec : alistLookup md.processed_files (renderRel relComps) = some r)
    (hstat : r.status = "success") :
    (should_skip_file mgr fs input_file output_file cfg = Except.ok true ↔
      (r.video = cfg.video ∧ r.audio = cfg.audio ∧ r.processing = cfg.processing ∧
        r.files = cfg.files ∧ r.error_log_file_path = none))
    ∧ ∀ lg : LoggingConfig,
        should_skip_file mgr fs input_file output_file { cfg with logging := lg } =
          should_skip_file mgr fs input_file output_file cfg := by
  constructor
  · have hout2 : renderAbs output_file ∈ fs.outputs := by simpa using hout
    simp [should_skip_file, hmd, hrel, hout2, hrec, hstat, configMatches_eq_true_iff]
  · intro lg
    rfl

theorem should_skip_config_equality_amended_witness :
    (should_skip_file (mgrOf mdSuccA) fsA fInA oA cfgA = Except.ok true ↔
      (recA.video = cfgA.video ∧ recA.audio = cfgA.audio ∧
        recA.processing = cfgA.processing ∧ recA.files = cfgA.files ∧
        recA.error_log_file_path = none))
    ∧ should_skip_file (mgrOf mdSuccA) fsA fInA oA
        { cfgA with logging := { level := "DEBUG" } } =
      should_skip_file (mgrOf mdSuccA) fsA fInA oA cfgA :=
  ⟨(should_skip_config_equality_amended (mgrOf mdSuccA) fsA fInA oA cfgA
      mdSuccA ["a.mp4"] recA rfl rfl rfl rfl rfl).1,
   (should_skip_config_equality_amended (mgrOf mdSuccA) fsA fInA oA cfgA
      mdSuccA ["a.mp4"] recA rfl rfl rfl rfl rfl).2 { level := "DEBUG" }⟩

/-- C4: if the loaded persisted state already binds the input root to `a`,
then `initialize` with a different root `b` raises a `ValueError` whose
message names both rendered roots and instructs deleting the metadata file,
and the filesystem (hence the on-disk metadata file) is returned unchanged;
`initialize` with the same root `a` succeeds, also leaving the filesystem
unchanged. -/
theorem initialize_root_mismatch
    (mgr : Manager) (fs : FS) (doc : MetadataDoc) (a b : FPath)
    (hdoc : fs.metadataDoc = some doc) (hbound : doc.input_dir = some a)
    (hne : a ≠ b) :
    initialize_store mgr fs b =
      (Except.error (PyError.valueError
        ("Input directory mismatch: metadata shows '" ++ renderAbs a ++
          "' but current input is '" ++ renderAbs b ++ "'. Delete " ++
          renderAbs (metadata_file mgr) ++
          " to process a different input directory.")), fs)
    ∧ initialize_store mgr fs a = (Except.ok (boundManager mgr a doc), fs) := by
  constructor
  · simp [initialize_store, load_metadata, hdoc, hbound, mismatch_message, hne]
  · simp [initialize_store, load_metadata, hdoc, hbound, boundManager]

theorem initialize_root_mismatch_witness :
    initialize_store (mgrOf mdSuccA) fsBoundA ["other"] =
      (Except.error (PyError.valueError
        ("Input directory mismatch: metadata shows '" ++ renderAbs ["in"] ++
          "' but current input is '" ++ renderAbs ["other"] ++ "'. Delete " ++
          renderAbs (metadata_file (mgrOf mdSuccA)) ++
          " to process a different input directory.")), fsBoundA)
    ∧ initialize_store (mgrOf mdSuccA) fsBoundA ["in"] =
      (Except.ok (boundManager (mgrOf mdSuccA) ["in"] docInA), fsBoundA) :=
  initialize_root_mismatch (mgrOf mdSuccA) fsBoundA docInA ["in"] ["other"]
    rfl rfl (by decide)

/-- C3 (code bug evidence): with a failed record for `a.mp4` and the
converted output already on disk, the loop of src/script.py `main` counts
the file as skipped — its skip test is only output-file existence and it
never consults the metadata store — while the store's own skip decision
`should_skip_file` is false (failed files must be retried), as the claim
and the repository's tests require. -/
theorem script_loop_ignores_metadata_store :
    script_process_file fsA ["in"] ["out"] fInA true = Except.ok ScriptOutcome.skipped
    ∧ script_process_file fsA ["in"] ["out"] fInA false = Except.ok ScriptOutcome.skipped
    ∧ should_skip_file (mgrOf mdFailA) fsA fInA oA cfgA = Except.ok false :=
  ⟨rfl, rfl, rfl⟩

/-- C7 counterexample: with an initialized store, a failed error-artifact
write inside `mark_failed` propagates to the caller as an uncaught
`OSError` (the write in `write_failed_logs` has no try/except), refuting
the claim that every store filesystem-write failure is absorbed. -/
theorem mark_failed_artifact_write_raises_cex :
    mark_failed (mgrOf mdSuccA) fsA ⟨false, true⟩ 9 fInA cfgA "boom" =
      (Except.error (PyError.osError "Failed to write /out/failed_conversions/a.mp4.txt"),
        fsA) :=
  rfl

/-- C7 amended: a failed metadata flush is caught inside `_save_metadata` —
the operation still returns normally and the on-disk metadata file is
untouched (only the temporary file is cleaned up) — but a failed
error-artifact write in `mark_failed` is not caught and propagates to the
caller as an `OSError`, before any flush. -/
theorem store_write_failure_handling_amended
    (mgr : Manager) (fs : FS) (now : Nat) (input_file : FPath) (cfg : Config)
    (error_output : String) (md : Metadata) (relComps : List String)
    (hmd : mgr.metadata = some md)
    (hrel : relative_to input_file md.input_dir = some relComps) :
    mark_processed mgr fs ⟨true, false⟩ now input_file cfg =
      (Except.ok (markedManager mgr md (renderRel relComps) (successRecord cfg now) now),
        { fs with tempDoc := none })
    ∧ mark_failed mgr fs ⟨false, true⟩ now input_file cfg error_output =
      (Except.error (PyError.osError ("Failed to write " ++
        (renderAbs (failed_folder mgr ++ [safe_filename (renderRel relComps)]) ++ ".txt"))),
        fs) := by
  constructor
  · simp [mark_processed, hmd, hrel, save_metadata, markedManager]
  · simp [mark_failed, hmd, hrel, write_failed_logs, error_log_path]

theorem store_write_failure_handling_amended_witness :
    mark_processed (mgrOf mdSuccA) fsA ⟨true, false⟩ 9 fInA cfgA =
      (Except.ok (markedManager (mgrOf mdSuccA) mdSuccA (renderRel ["a.mp4"])
        (successRecord cfgA 9) 9), { fsA with tempDoc := none })
    ∧ mark_failed (mgrOf mdSuccA) fsA ⟨false, true⟩ 9 fInA cfgA "boom" =
      (Except.error (PyError.osError ("Failed to write " ++
        (renderAbs (failed_folder (mgrOf mdSuccA) ++ [safe_filename (renderRel ["a.mp4"])]) ++
          ".txt"))), fsA) :=
  store_write_failure_handling_amended (mgrOf mdSuccA) fsA 9 fInA cfgA "boom"
    mdSuccA ["a.mp4"] rfl rfl

lemma runEvents_append (d : DiskBytes) (xs ys : List FlushEvent) :
    runEvents d (xs ++ ys) = runEvents (runEvents d xs) ys := by
  induction xs generalizing d with
  | nil => rfl
  | cons e es ih => simp [runEvents, ih]

lemma metaBytes_runEvents_writeTemps (d : DiskBytes) (ps : List String) :
    (runEvents d (ps.map FlushEvent.writeTemp)).metaBytes = d.metaBytes := by
  induction ps generalizing d with
  | nil => rfl
  | cons p ps ih => simp [runEvents, applyEvent, ih]

/-- C6: every flush of `_save_metadata` writes the complete document to the
temporary sibling file and then installs it with one atomic rename, so a
reader interrupting the flush after any prefix of its events sees at the
metadata path either the previously committed content or the complete new
document — never a truncated intermediate — while an uninterrupted flush
ends with the new document committed. -/
theorem save_metadata_atomic_flush (d0 : DiskBytes) (partials : List String)
    (doc : String) (n : Nat) :
    ((runEvents d0 ((flushTrace partials doc).take n)).metaBytes = d0.metaBytes ∨
      (runEvents d0 ((flushTrace partials doc).take n)).metaBytes = some doc)
    ∧ (runEvents d0 (flushTrace partials doc)).metaBytes = some doc := by
  constructor
  · induction partials generalizing d0 n with
    | nil =>
      match n with
      | 0 => exact Or.inl rfl
      | 1 => exact Or.inl rfl
      | (m + 2) =>
        refine Or.inr ?_
        simp [flushTrace, runEvents, applyEvent, List.take_succ_cons]
    | cons p ps ih =>
      match n with
      | 0 => exact Or.inl rfl
      | (m + 1) =>
        have h : flushTrace (p :: ps) doc =
            FlushEvent.writeTemp p :: flushTrace ps doc := by
          simp [flushTrace]
        rw [h, List.take_succ_cons]
        have h2 := ih { d0 with tempBytes := some p } m
        simpa [runEvents, applyEvent] using h2
  · rw [flushTrace, runEvents_append]
    simp [runEvents, applyEvent]

/-- C5 (skip round-trip): for any input file under the bound input
directory and any configuration, after `mark_processed` the in-memory store
holds the fresh success snapshot, and if the corresponding output file
exists on the resulting filesystem then `should_skip_file` with the same
configuration returns true — an unchanged re-run skips the file.
`should_skip_file` itself is a pure read, so the skip leaves the record
unchanged.  This holds whether or not the flush itself succeeded. -/
theorem mark_processed_then_skip
    (mgr : Manager) (fs : FS) (iob : IOBehavior) (now : Nat)
    (input_file output_file : FPath) (cfg : Config)
    (md : Metadata) (relComps : List String)
    (hmd : mgr.metadata = some md)
    (hrel : relative_to input_file md.input_dir = some relComps)
    (hout : fs.outputs.contains (renderAbs output_file) = true) :
    (mark_processed mgr fs iob now input_file cfg).1 =
      Except.ok (markedManager mgr md (renderRel relComps) (successRecord cfg now) now)
    ∧ should_skip_file
        (markedManager mgr md (renderRel relComps) (successRecord cfg now) now)
        (mark_processed mgr fs iob now input_file cfg).2
        input_file output_file cfg = Except.ok true := by
  have hout2 : renderAbs output_file ∈ fs.outputs := by simpa using hout
  cases hflush : iob.flushFails with
  | true =>
    constructor
    · simp [mark_processed, hmd, hrel, save_metadata, hflush, markedManager]
    · simp [mark_processed, hmd, hrel, save_metadata, hflush, markedManager,
        should_skip_file, alistLookup_insert_self, configMatches, successRecord, hout2]
  | false =>
    constructor
    · simp [mark_processed, hmd, hrel, save_metadata, hflush, markedManager]
    · simp [mark_processed, hmd, hrel, save_metadata, hflush, markedManager,
        should_skip_file, alistLookup_insert_self, configMatches, successRecord, hout2]

theorem mark_processed_then_skip_witness :
    (mark_processed (mgrOf mdEmptyA) fsA ⟨false, false⟩ 9 fInA cfgA).1 =
      Except.ok (markedManager (mgrOf mdEmptyA) mdEmptyA (renderRel ["a.mp4"])
        (successRecord cfgA 9) 9)
    ∧ should_skip_file
        (markedManager (mgrOf mdEmptyA) mdEmptyA (renderRel ["a.mp4"])
          (successRecord cfgA 9) 9)
        (mark_processed (mgrOf mdEmptyA) fsA ⟨false, false⟩ 9 fInA cfgA).2
        fInA oA cfgA = Except.ok true :=
  mark_processed_then_skip (mgrOf mdEmptyA) fsA ⟨false, false⟩ 9 fInA oA cfgA
    mdEmptyA ["a.mp4"] rfl rfl rfl

/-- C9: in every record written by the store, `error_log_file_path` is null
exactly on success records and non-null exactly on failed records, where it
names the flat text file `failed_conversions/<relative path with path
separators replaced by underscores>.txt` under the output root, and after a
completed `mark_failed` that artifact file holds the failure's diagnostic
text (plus a trailing newline). -/
theorem record_error_log_invariant
    (mgr : Manager) (fs : FS) (flushFails : Bool) (now : Nat)
    (input_file : FPath) (cfg : Config) (error_output : String)
    (md : Metadata) (relComps : List String)
    (hmd : mgr.metadata = some md)
    (hrel : relative_to input_file md.input_dir = some relComps) :
    (mark_processed mgr fs ⟨flushFails, false⟩ now input_file cfg).1 =
      Except.ok (markedManager mgr md (renderRel relComps) (successRecord cfg now) now)
    ∧ (successRecord cfg now).status = "success"
    ∧ (successRecord cfg now).error_log_file_path = none
    ∧ (mark_failed mgr fs ⟨flushFails, false⟩ now input_file cfg error_output).1 =
      Except.ok (markedManager mgr md (renderRel relComps)
        (failedRecord cfg now (error_log_path mgr (renderRel relComps))) now)
    ∧ (failedRecord cfg now (error_log_path mgr (renderRel relComps))).status = "failed"
    ∧ (failedRecord cfg now (error_log_path mgr (renderRel relComps))).error_log_file_path =
        some (error_log_path mgr (renderRel relComps))
    ∧ error_log_path mgr (renderRel relComps) =
        renderAbs (failed_folder mgr ++ [safe_filename (renderRel relComps)]) ++ ".txt"
    ∧ alistLookup
        (mark_failed mgr fs ⟨flushFails, false⟩ now input_file cfg error_output).2.artifacts
        (error_log_path mgr (renderRel relComps)) = some (error_output ++ "\n") := by
  cases flushFails with
  | true =>
    refine ⟨?_, rfl, rfl, ?_, rfl, rfl, rfl, ?_⟩
    · simp [mark_processed, hmd, hrel, save_metadata, markedManager]
    · simp [mark_failed, hmd, hrel, write_failed_logs, save_metadata, markedManager]
    · simp [mark_failed, hmd, hrel, write_failed_logs, save_metadata,
        alistLookup_insert_self]
  | false =>
    refine ⟨?_, rfl, rfl, ?_, rfl, rfl, rfl, ?_⟩
    · simp [mark_processed, hmd, hrel, save_metadata, markedManager]
    · simp [mark_failed, hmd, hrel, write_failed_logs, save_metadata, markedManager]
    · simp [mark_failed, hmd, hrel, write_failed_logs, save_metadata,
        alistLookup_insert_self]

theorem record_error_log_invariant_witness :
    (mark_processed (mgrOf mdEmptyA) fsA ⟨false, false⟩ 9 fInA cfgA).1 =
      Except.ok (markedManager (mgrOf mdEmptyA) mdEmptyA (renderRel ["a.mp4"])
        (successRecord cfgA 9) 9)
    ∧ (successRecord cfgA 9).status = "success"
    ∧ (successRecord cfgA 9).error_log_file_path = none
    ∧ (mark_failed (mgrOf mdEmptyA) fsA ⟨false, false⟩ 9 fInA cfgA "boom").1 =
      Except.ok (markedManager (mgrOf mdEmptyA) mdEmptyA (renderRel ["a.mp4"])
        (failedRecord cfgA 9 (error_log_path (mgrOf mdEmptyA) (renderRel ["a.mp4"]))) 9)
    ∧ (failedRecord cfgA 9 (error_log_path (mgrOf mdEmptyA) (renderRel ["a.mp4"]))).status =
        "failed"
    ∧ (failedRecord cfgA 9
        (error_log_path (mgrOf mdEmptyA) (renderRel ["a.mp4"]))).error_log_file_path =
        some (error_log_path (mgrOf mdEmptyA) (renderRel ["a.mp4"]))
    ∧ error_log_path (mgrOf mdEmptyA) (renderRel ["a.mp4"]) =
        renderAbs (failed_folder (mgrOf mdEmptyA) ++ [safe_filename (renderRel ["a.mp4"])]) ++
          ".txt"
    ∧ alistLookup
        (mark_failed (mgrOf mdEmptyA) fsA ⟨false, false⟩ 9 fInA cfgA "boom").2.artifacts
        (error_log_path (mgrOf mdEmptyA) (renderRel ["a.mp4"])) = some ("boom" ++ "\n") :=
  record_error_log_invariant (mgrOf mdEmptyA) fsA false 9 fInA cfgA "boom"
    mdEmptyA ["a.mp4"] rfl rfl
